import Mathlib

/-!
Verification of the nkrane terminology-controlled translation utilities.

This file gives a shallow embedding of the Python sources
`src/tc_translate/utils.py` and `src/nkrane/translator.py` and proves
properties of the embedded definitions. The external collaborators
(pandas CSV reading, the Google Translate network call, the
`TerminologyManager` whose module is not part of the sources) are
abstracted as explicit inputs: a CSV read either fails with a message or
yields a data frame; the external translate call is a function that
either fails with an exception value or yields a translated string; the
terminology manager is a record of the pure functions the translator
calls on it.
-/

namespace Nkrane

/-! ## Data frames: model of a CSV file read by pandas

`pd.read_csv` either raises (modelled as `Except.error msg`) or yields a
data frame with a list of column names and a list of rows. A column of
the frame is the list of that column's value in each row. -/

structure DataFrame where
  columns : List String
  rows : List (List String)
deriving Repr, DecidableEq

/-- `df[c]`: the values of column `c` in every row (positional lookup of
the column's index within `df.columns`, empty when absent). -/
def DataFrame.colValues (df : DataFrame) (c : String) : List String :=
  match df.columns.indexOf? c with
  | some i => df.rows.map (fun r => r.getD i "")
  | none => []

/-- `series.duplicated().any()` of pandas: `true` iff some value occurs
at least twice in the list. The comparison is exact (case-sensitive),
as pandas compares strings. -/
def hasDup : List String → Bool
  | [] => false
  | x :: xs => xs.contains x || hasDup xs

/-! ## `validate_terminology_file` (src/tc_translate/utils.py, lines 58-79)

The file read is abstracted as an `Except String DataFrame` input; the
Python function returns a pair of a boolean flag and a reason string and
never raises (the whole body is wrapped in try/except). The Python
missing-columns message interpolates the Python list literal of the
required column names; the quoting characters of that rendering are
immaterial to every claim, so the message here names the columns plainly. -/

def validate_terminology_file (file : Except String DataFrame) : Bool × String :=
  match file with
  | .error e => (false, "Error reading file: " ++ e)
  | .ok df =>
    if ¬ (["id", "term", "translation"].all (fun c => df.columns.contains c)) then
      (false, "Missing required columns. Required: [id, term, translation]")
    else if hasDup (df.colValues "term") then
      (false, "Duplicate terms found")
    else if hasDup (df.colValues "id") then
      (false, "Duplicate IDs found")
    else
      (true, "File is valid")

/-! ## `export_terminology` (src/tc_translate/utils.py, lines 27-56)

The `TerminologyManager` lookup `get_terms_for_domain_lang` is abstracted
as the input `terms_dict`, given as the list of its values (each a record
with `id`, `term`, `translation`). The function raises `ValueError` when
the dict is empty, otherwise serializes to JSON or CSV, or returns the
raw list for any other `output_format`. -/

structure TermEntry where
  id : String
  term : String
  translation : String
deriving Repr, DecidableEq

/-- The possible successful return values of `export_terminology`: a
serialized string (JSON or CSV) or the raw list of term records. -/
inductive ExportValue where
  | str : String → ExportValue
  | raw : List TermEntry → ExportValue
deriving Repr, DecidableEq

/-- Model of `json.dumps` on the list of {id, term, translation} dicts:
an opaque-to-the-claims serialization; rendered as a bracketed list of
object renderings. -/
def jsonDump (terms : List TermEntry) : String :=
  "[" ++ String.intercalate ", "
    (terms.map (fun t =>
      "\x7b" ++ "id: " ++ t.id ++ ", term: " ++ t.term ++
      ", translation: " ++ t.translation ++ "\x7d")) ++ "]"

/-- Model of the `csv.DictWriter` output: a header line followed by one
line per record. -/
def csvDump (terms : List TermEntry) : String :=
  "id,term,translation\n" ++
    String.intercalate "" (terms.map (fun t =>
      t.id ++ "," ++ t.term ++ "," ++ t.translation ++ "\n"))

def export_terminology (domain language : String) (terms_dict : List TermEntry)
    (output_format : String) : Except String ExportValue :=
  if terms_dict.isEmpty then
    .error ("No terminology found for " ++ domain ++ "/" ++ language)
  else
    let terms_list := terms_dict
    if output_format = "json" then
      .ok (.str (jsonDump terms_list))
    else if output_format = "csv" then
      .ok (.str (csvDump terms_list))
    else
      .ok (.raw terms_list)

/-! ## `list_available_options` (src/tc_translate/utils.py, lines 5-25)

The three manager queries (`get_domains`, `get_languages`,
`get_available_domains_languages`) are abstracted as inputs. The Python
dict `domains_dict` is modelled as a function from keys to optional
values (the lookup semantics of a dict); the loop body
`if domain not in d: d[domain] = []` followed by `d[domain].append(lang)`
appends `lang` to the (possibly fresh empty) list at `domain`. -/

def groupStep (acc : String → Option (List String)) (p : String × String) :
    String → Option (List String) :=
  fun d => if d = p.1 then some ((acc p.1).getD [] ++ [p.2]) else acc d

/-- The grouping loop of `list_available_options`: fold the pairs into an
initially empty dict. -/
def groupByDomain (pairs : List (String × String)) : String → Option (List String) :=
  pairs.foldl groupStep (fun _ => none)

structure AvailableOptions where
  domains : List String
  languages : List String
  domain_language_pairs : List (String × String)
  domains_with_languages : String → Option (List String)

def list_available_options (domains languages : List String)
    (domain_lang_pairs : List (String × String)) : AvailableOptions :=
  { domains := domains
    languages := languages
    domain_language_pairs := domain_lang_pairs
    domains_with_languages := groupByDomain domain_lang_pairs }

/-! ## The translator (src/nkrane/translator.py)

Python exceptions are values of `PyExc`; the classes the code
distinguishes (`RuntimeError`, `TimeoutError`) are constructors, every
other exception class is `other`. -/

inductive PyExc where
  | runtimeError (msg : String)
  | timeoutError (msg : String)
  | other (msg : String)
deriving Repr, DecidableEq

/-- The fields the `NkraneTranslator` instance carries that
`_translate_async` reads: the language-code attributes set in
`__init__`, and the terminology manager in the form of the two pure
functions the translator calls on it. `preprocess_text` returns the
preprocessed text, the replacements dict (an association list whose
order is the dict's insertion order; `len` is its length, `.keys()` its
first components), and the recorded original casing data. The module
`terminology_manager.py` is not among the sources, so these two
functions are abstract. -/
structure NkraneTranslator where
  src_lang : String
  target_lang : String
  src_lang_google : String
  target_lang_google : String
  preprocess_text : String → String × List (String × String) × List String
  postprocess_text : String → List (String × String) → List String → String

/-- The result dict of a successful `_translate_async` call
(translator.py lines 88-99). -/
structure TranslateResult where
  text : String
  src : String
  dest : String
  original : String
  preprocessed : String
  google_translation : String
  replacements_count : Nat
  src_google : String
  dest_google : String
  replaced_terms : List String
deriving Repr, DecidableEq

/-- `_translate_async` (translator.py lines 52-103). The external
Google Translate call is the input `gtranslate`, a function from the
text sent to either an exception or the translated text. The
`try`/`except` around the external call logs the exception and
re-raises it unchanged (`raise` with no argument), so an error outcome
of the external call is returned unchanged. -/
def _translate_async (self : NkraneTranslator)
    (gtranslate : String → Except PyExc String) (text : String) :
    Except PyExc TranslateResult :=
  -- preprocessed_text = pre.1, replacements = pre.2.1, original_cases = pre.2.2
  let pre := self.preprocess_text text
  match gtranslate pre.1 with
  | .error e => .error e
  | .ok translated_with_placeholders =>
    let final_text := self.postprocess_text translated_with_placeholders
      pre.2.1 pre.2.2
    .ok {
      text := final_text
      src := self.src_lang
      dest := self.target_lang
      original := text
      preprocessed := pre.1
      google_translation := translated_with_placeholders
      replacements_count := pre.2.1.length
      src_google := self.src_lang_google
      dest_google := self.target_lang_google
      replaced_terms := pre.2.1.map Prod.fst }

/-! ## `translate`, the synchronous wrapper (translator.py lines 105-130)

The asyncio environment is abstracted as `LoopEnv`:
`get_event_loop` either raises `RuntimeError` (modelled as
`.error msg`) or yields a loop whose `is_running()` is the returned
boolean; `future_times_out` tells whether, in the running-loop branch,
`future.result(timeout=30)` raises `TimeoutError` instead of delivering
the coroutine's outcome.

The external call may behave differently on each attempt, so the oracle
`g` takes the attempt index: attempt `n` runs
`_translate_async self (g n) text`. `translate` returns the final
outcome paired with the number of times `_translate_async` was run, so
that retry behaviour is part of the model:

* if the `try` body raises `RuntimeError` — either from
  `asyncio.get_event_loop()` itself or from the translation attempt —
  the `except RuntimeError` handler runs `asyncio.run` on a fresh
  coroutine, a second attempt whose outcome is returned;
* a `TimeoutError` is logged and re-raised;
* any other exception propagates unchanged. -/

structure LoopEnv where
  get_event_loop : Except String Bool
  future_times_out : Bool

def translate (self : NkraneTranslator)
    (g : Nat → String → Except PyExc String) (env : LoopEnv) (text : String) :
    Except PyExc TranslateResult × Nat :=
  let attempt := fun n => _translate_async self (g n) text
  match env.get_event_loop with
  | .error _ => (attempt 0, 1)
  | .ok running =>
    if running then
      if env.future_times_out then
        (.error (.timeoutError "Translation timed out after 30 seconds"), 1)
      else
        match attempt 0 with
        | .ok r => (.ok r, 1)
        | .error (.runtimeError _) => (attempt 1, 2)
        | .error e => (.error e, 1)
    else
      match attempt 0 with
      | .ok r => (.ok r, 1)
      | .error (.runtimeError _) => (attempt 1, 2)
      | .error e => (.error e, 1)

/-! ## `batch_translate` (translator.py lines 132-139)

The loop awaits `_translate_async` for each text in order and appends
the result; an exception raised for any text propagates out of the
loop, so no results list is returned at all in that case. The
`asyncio.sleep(0.1)` rate-limiting delay has no effect on values. -/

def batch_translate (self : NkraneTranslator)
    (gtranslate : String → Except PyExc String) :
    List String → Except PyExc (List TranslateResult)
  | [] => .ok []
  | text :: rest =>
    match _translate_async self gtranslate text with
    | .error e => .error e
    | .ok r =>
      match batch_translate self gtranslate rest with
      | .error e => .error e
      | .ok rs => .ok (r :: rs)

/-! ## Theorems about `validate_terminology_file` -/

/-- The validity flag on a successfully read frame, as one boolean
expression: required columns present, no duplicate term, no duplicate id. -/
theorem validate_fst_eq (df : DataFrame) :
    (validate_terminology_file (Except.ok df)).1 =
      ((["id", "term", "translation"].all (fun c => df.columns.contains c)) &&
        !hasDup (df.colValues "term") && !hasDup (df.colValues "id")) := by
  simp only [validate_terminology_file]
  by_cases h1 : (["id", "term", "translation"].all
      (fun c => df.columns.contains c)) = true
  · rw [h1]
    by_cases h2 : hasDup (df.colValues "term") = true
    · rw [h2]; simp
    · rw [Bool.not_eq_true] at h2
      rw [h2]
      by_cases h3 : hasDup (df.colValues "id") = true
      · rw [h3]; simp
      · rw [Bool.not_eq_true] at h3
        rw [h3]; simp
  · rw [Bool.not_eq_true] at h1
    rw [h1]; simp

/-- C4: `validate_terminology_file` always returns a boolean flag paired
with a reason string (it is a total function of the read outcome; a read
error yields the flag `false` with an "Error reading file" reason), and
the flag is `true` exactly when the read succeeded, all three required
columns `id`, `term`, `translation` are present, and the file contains
no duplicate `id` and no duplicate `term` values. -/
theorem validate_terminology_file_flag_iff (file : Except String DataFrame) :
    (∀ e, validate_terminology_file (Except.error e) =
      (false, "Error reading file: " ++ e)) ∧
    ((validate_terminology_file file).1 = true ↔
      ∃ df, file = Except.ok df ∧
        df.columns.contains "id" = true ∧
        df.columns.contains "term" = true ∧
        df.columns.contains "translation" = true ∧
        hasDup (df.colValues "id") = false ∧
        hasDup (df.colValues "term") = false) := by
  refine ⟨fun e => rfl, ?_⟩
  cases file with
  | error e => simp [validate_terminology_file]
  | ok df =>
    rw [validate_fst_eq]
    simp only [Bool.and_eq_true, Bool.not_eq_true', List.all_cons, List.all_nil,
      Bool.and_true, Except.ok.injEq]
    constructor
    · rintro ⟨⟨⟨hid, hterm, htr⟩, hdupt⟩, hdupi⟩
      exact ⟨df, rfl, hid, hterm, htr, hdupi, hdupt⟩
    · rintro ⟨df', rfl, hid, hterm, htr, hdupi, hdupt⟩
      exact ⟨⟨⟨hid, hterm, htr⟩, hdupt⟩, hdupi⟩

/-- A terminology file whose two rows carry the terms "Parliament" and
"parliament": equal case-insensitively, distinct case-sensitively. -/
def dfCaseDup : DataFrame :=
  { columns := ["id", "term", "translation"]
    rows := [["1", "Parliament", "x"], ["2", "parliament", "y"]] }

/-- C3 counterexample: the two term values of `dfCaseDup` are equal
case-insensitively, yet `validate_terminology_file` reports the file as
valid (flag `true`), not as invalid with a duplicate-term reason: pandas
`duplicated()` compares the strings exactly, so the check is
case-sensitive. -/
theorem validate_case_insensitive_dup_accepted :
    "Parliament".data.map Char.toLower = "parliament".data.map Char.toLower ∧
    validate_terminology_file (Except.ok dfCaseDup) = (true, "File is valid") := by
  constructor
  · decide
  · rfl

/-- C3 amended: duplicate terms are detected case-sensitively only — for
every terminology file with the required columns whose rows contain two
exactly equal term values, `validate_terminology_file` reports the file
as invalid with the duplicate-term reason. -/
theorem validate_exact_dup_term_rejected (df : DataFrame)
    (hcols : (["id", "term", "translation"].all
      (fun c => df.columns.contains c)) = true)
    (hdup : hasDup (df.colValues "term") = true) :
    validate_terminology_file (Except.ok df) = (false, "Duplicate terms found") := by
  simp only [validate_terminology_file, hcols, hdup]
  simp

/-- A file whose two term values are exactly equal ("Parliament" twice),
with distinct ids and the required columns. -/
def dfExactDup : DataFrame :=
  { columns := ["id", "term", "translation"]
    rows := [["1", "Parliament", "x"], ["2", "Parliament", "y"]] }

/-- C3 witness: the amended theorem applied to `dfExactDup`. -/
theorem validate_exact_dup_term_rejected_witness :
    ((["id", "term", "translation"].all
        (fun c => dfExactDup.columns.contains c)) = true ∧
      hasDup (dfExactDup.colValues "term") = true) ∧
    validate_terminology_file (Except.ok dfExactDup) =
      (false, "Duplicate terms found") :=
  ⟨⟨rfl, rfl⟩, validate_exact_dup_term_rejected dfExactDup rfl rfl⟩

/-- A file whose two rows share id "5" and also share the term "hello". -/
def dfDupIdAndTerm : DataFrame :=
  { columns := ["id", "term", "translation"]
    rows := [["5", "hello", "x"], ["5", "hello", "y"]] }

/-- C5 counterexample: `dfDupIdAndTerm` has all required columns and two
rows sharing id "5", yet the reported reason is the duplicate-term one,
not a duplicate-ID reason: the term check runs before the id check. -/
theorem validate_dup_id_masked_by_dup_term :
    validate_terminology_file (Except.ok dfDupIdAndTerm) =
      (false, "Duplicate terms found") ∧
    ("Duplicate terms found" : String) ≠ "Duplicate IDs found" := by
  exact ⟨rfl, by decide⟩

/-- C5 amended: a terminology file with all required columns, two rows
sharing the same id value, and no duplicate term values fails validation
with the duplicate-ID reason string. -/
theorem validate_dup_id_rejected (df : DataFrame)
    (hcols : (["id", "term", "translation"].all
      (fun c => df.columns.contains c)) = true)
    (hterm : hasDup (df.colValues "term") = false)
    (hid : hasDup (df.colValues "id") = true) :
    validate_terminology_file (Except.ok df) = (false, "Duplicate IDs found") := by
  simp only [validate_terminology_file, hcols, hterm, hid]
  simp

/-- A file whose two rows share id "5" with distinct terms. -/
def dfDupIdOnly : DataFrame :=
  { columns := ["id", "term", "translation"]
    rows := [["5", "hello", "x"], ["5", "world", "y"]] }

/-- C5 witness: the amended theorem applied to `dfDupIdOnly`. -/
theorem validate_dup_id_rejected_witness :
    ((["id", "term", "translation"].all
        (fun c => dfDupIdOnly.columns.contains c)) = true ∧
      hasDup (dfDupIdOnly.colValues "term") = false ∧
      hasDup (dfDupIdOnly.colValues "id") = true) ∧
    validate_terminology_file (Except.ok dfDupIdOnly) =
      (false, "Duplicate IDs found") :=
  ⟨⟨rfl, rfl, rfl⟩, validate_dup_id_rejected dfDupIdOnly rfl rfl rfl⟩

/-! ## Theorems about `export_terminology` -/

/-- C6: `export_terminology` fails fast on an empty (domain, language)
pair — an empty terms dict always yields a `ValueError` with the
"No terminology found" message, never a silent empty export — and it
succeeds exactly when the pair is populated. -/
theorem export_terminology_fail_fast (domain language : String)
    (terms_dict : List TermEntry) (output_format : String) :
    (export_terminology domain language ([] : List TermEntry) output_format =
      .error ("No terminology found for " ++ domain ++ "/" ++ language)) ∧
    ((export_terminology domain language terms_dict output_format).isOk ↔
      terms_dict ≠ []) := by
  constructor
  · rfl
  · cases terms_dict with
    | nil => simp [export_terminology, Except.isOk, Except.toBool]
    | cons t ts =>
      simp only [export_terminology, List.isEmpty_cons, if_false]
      constructor
      · intro _; exact List.cons_ne_nil t ts
      · intro _
        by_cases hj : output_format = "json"
        · simp [hj, Except.isOk, Except.toBool]
        · by_cases hc : output_format = "csv"
          · simp [hj, hc, Except.isOk, Except.toBool]
          · simp [hj, hc, Except.isOk, Except.toBool]

/-- C10: for a populated terms dict and any `output_format` other than
"json" and "csv", `export_terminology` does not fail: it falls through
both serialization branches and returns the raw list of
{id, term, translation} records. -/
theorem export_terminology_raw_format (domain language : String)
    (terms_dict : List TermEntry) (output_format : String)
    (hne : terms_dict ≠ [])
    (hj : output_format ≠ "json") (hc : output_format ≠ "csv") :
    export_terminology domain language terms_dict output_format =
      .ok (.raw terms_dict) := by
  have hemp : terms_dict.isEmpty = false := by
    cases terms_dict with
    | nil => exact absurd rfl hne
    | cons t ts => rfl
  simp [export_terminology, hemp, hj, hc]

/-- C10 witness: the raw-format theorem at a concrete populated dict and
the format "xml". -/
theorem export_terminology_raw_format_witness :
    (([⟨"1", "Parliament", "Vouli"⟩] : List TermEntry) ≠ [] ∧
      ("xml" : String) ≠ "json" ∧ ("xml" : String) ≠ "csv") ∧
    export_terminology "politics" "el" [⟨"1", "Parliament", "Vouli"⟩] "xml" =
      .ok (.raw [⟨"1", "Parliament", "Vouli"⟩]) :=
  ⟨⟨by decide, by decide, by decide⟩,
    export_terminology_raw_format "politics" "el" [⟨"1", "Parliament", "Vouli"⟩]
      "xml" (by decide) (by decide) (by decide)⟩

/-! ## Theorems about `list_available_options` -/

/-- The grouping loop invariant: folding further pairs into a dict whose
membership matches the pairs already seen extends that correspondence. -/
theorem groupStep_foldl_mem (rest : List (String × String)) :
    ∀ (acc : String → Option (List String)) (seen : List (String × String)),
      (∀ d l, l ∈ ((acc d).getD []) ↔ (d, l) ∈ seen) →
      ∀ d l, l ∈ (((rest.foldl groupStep acc) d).getD []) ↔ (d, l) ∈ seen ++ rest := by
  induction rest with
  | nil =>
    intro acc seen hinv d l
    simpa using hinv d l
  | cons p ps ih =>
    intro acc seen hinv d l
    obtain ⟨pd, pl⟩ := p
    have hstep : ∀ d l, l ∈ (((groupStep acc (pd, pl)) d).getD []) ↔
        (d, l) ∈ seen ++ [(pd, pl)] := by
      intro d l
      by_cases hd : d = pd
      · subst hd
        rw [show groupStep acc (d, pl) d = some ((acc d).getD [] ++ [pl]) from
          if_pos rfl]
        simp only [Option.getD_some, List.mem_append, List.mem_singleton]
        rw [hinv d l]
        simp [Prod.ext_iff]
      · rw [show groupStep acc (pd, pl) d = acc d from if_neg hd]
        rw [hinv d l]
        simp [Prod.ext_iff, hd]
    have := ih (groupStep acc (pd, pl)) (seen ++ [(pd, pl)]) hstep d l
    simpa [List.append_assoc] using this

/-- Membership in the grouped dict agrees with membership in the pair
list. -/
theorem groupByDomain_mem (pairs : List (String × String)) (d l : String) :
    l ∈ ((groupByDomain pairs d).getD []) ↔ (d, l) ∈ pairs := by
  have := groupStep_foldl_mem pairs (fun _ => none) []
    (by intro d l; simp) d l
  simpa using this

/-- C8: `list_available_options` returns the manager's domains,
languages and populated (domain, language) pairs unchanged, and its
`domains_with_languages` grouping is consistent with the pairs: a
language is listed under a domain exactly when that (domain, language)
pair is in `domain_language_pairs`. -/
theorem list_available_options_spec (domains languages : List String)
    (pairs : List (String × String)) :
    (list_available_options domains languages pairs).domains = domains ∧
    (list_available_options domains languages pairs).languages = languages ∧
    (list_available_options domains languages pairs).domain_language_pairs = pairs ∧
    ∀ d l,
      l ∈ ((((list_available_options domains languages pairs).domains_with_languages
          d).getD []) : List String) ↔ (d, l) ∈ pairs := by
  refine ⟨rfl, rfl, rfl, ?_⟩
  intro d l
  exact groupByDomain_mem pairs d l

/-! ## Theorems about the translator -/

/-- C7: every successful `_translate_async` call returns the complete
result dict: its `original` field is the input text, `preprocessed` is
the preprocessing output, `google_translation` is exactly what the
external call returned, `text` is the postprocessing of that external
translation, and the restored-term count and list come from the
replacements mapping of preprocessing. -/
theorem translate_async_result_complete (self : NkraneTranslator)
    (gtranslate : String → Except PyExc String) (text : String)
    (r : TranslateResult)
    (h : _translate_async self gtranslate text = Except.ok r) :
    r.original = text ∧
    r.preprocessed = (self.preprocess_text text).1 ∧
    gtranslate (self.preprocess_text text).1 = Except.ok r.google_translation ∧
    r.text = self.postprocess_text r.google_translation
      (self.preprocess_text text).2.1 (self.preprocess_text text).2.2 ∧
    r.replacements_count = (self.preprocess_text text).2.1.length ∧
    r.replaced_terms = (self.preprocess_text text).2.1.map Prod.fst := by
  simp only [_translate_async] at h
  cases hg : gtranslate (self.preprocess_text text).1 with
  | error e =>
    rw [hg] at h
    cases h
  | ok t =>
    rw [hg] at h
    simp only [Except.ok.injEq] at h
    subst h
    exact ⟨rfl, rfl, rfl, rfl, rfl, rfl⟩

/-- A concrete translator instance for witnesses: preprocessing prefixes
the text and records one replacement, postprocessing returns the
translated text unchanged. -/
def selfDemo : NkraneTranslator :=
  { src_lang := "en"
    target_lang := "ak"
    src_lang_google := "en"
    target_lang_google := "ak"
    preprocess_text := fun t => ("pre " ++ t, [("Parliament", "TERM0")], ["cap"])
    postprocess_text := fun t _ _ => t }

/-- An external-call oracle that always succeeds. -/
def gOkDemo : String → Except PyExc String := fun s => Except.ok ("G-" ++ s)

/-- The result of `_translate_async selfDemo gOkDemo "hi"`. -/
def rDemo : TranslateResult :=
  { text := "G-pre hi"
    src := "en"
    dest := "ak"
    original := "hi"
    preprocessed := "pre hi"
    google_translation := "G-pre hi"
    replacements_count := 1
    src_google := "en"
    dest_google := "ak"
    replaced_terms := ["Parliament"] }

/-- C7 witness: the completeness theorem applied at a concrete
translator, oracle and text. -/
theorem translate_async_result_complete_witness :
    _translate_async selfDemo gOkDemo "hi" = Except.ok rDemo ∧
    (rDemo.original = "hi" ∧
      rDemo.preprocessed = (selfDemo.preprocess_text "hi").1 ∧
      gOkDemo (selfDemo.preprocess_text "hi").1 =
        Except.ok rDemo.google_translation ∧
      rDemo.text = selfDemo.postprocess_text rDemo.google_translation
        (selfDemo.preprocess_text "hi").2.1 (selfDemo.preprocess_text "hi").2.2 ∧
      rDemo.replacements_count = (selfDemo.preprocess_text "hi").2.1.length ∧
      rDemo.replaced_terms = (selfDemo.preprocess_text "hi").2.1.map Prod.fst) :=
  ⟨rfl, translate_async_result_complete selfDemo gOkDemo "hi" rDemo rfl⟩

/-- C9: in every successful `_translate_async` result, the
`replacements_count` field equals the length of the `replaced_terms`
list: the former is the length of the replacements mapping, the latter
its list of keys. -/
theorem replacements_count_eq_replaced_terms_length (self : NkraneTranslator)
    (gtranslate : String → Except PyExc String) (text : String)
    (r : TranslateResult)
    (h : _translate_async self gtranslate text = Except.ok r) :
    r.replacements_count = r.replaced_terms.length := by
  simp only [_translate_async] at h
  cases hg : gtranslate (self.preprocess_text text).1 with
  | error e =>
    rw [hg] at h
    cases h
  | ok t =>
    rw [hg] at h
    simp only [Except.ok.injEq] at h
    subst h
    simp

/-- The result of `_translate_async selfDemo gOkDemo "world"`. -/
def rDemoW : TranslateResult :=
  { text := "G-pre world"
    src := "en"
    dest := "ak"
    original := "world"
    preprocessed := "pre world"
    google_translation := "G-pre world"
    replacements_count := 1
    src_google := "en"
    dest_google := "ak"
    replaced_terms := ["Parliament"] }

/-- C9 witness: the count/length equality at a concrete input. -/
theorem replacements_count_eq_replaced_terms_length_witness :
    _translate_async selfDemo gOkDemo "world" = Except.ok rDemoW ∧
    rDemoW.replacements_count = rDemoW.replaced_terms.length :=
  ⟨rfl, replacements_count_eq_replaced_terms_length selfDemo gOkDemo "world"
    rDemoW rfl⟩

/-! ## `batch_translate` aborts on the first failure (C1) -/

/-- An external-call oracle that fails exactly on the preprocessed form
of "a" and succeeds on every other text. -/
def gFailA : String → Except PyExc String :=
  fun s => if s = "pre a" then Except.error (.other "boom")
           else Except.ok ("G-" ++ s)

/-- C1 counterexample: with an oracle failing only for the text "a",
`batch_translate` on ["a", "b"] returns the exception alone — no result
for "b" is collected — even though translating "b" by itself succeeds.
A failure for one text therefore aborts the whole batch. -/
theorem batch_translate_aborts_cex :
    batch_translate selfDemo gFailA ["a", "b"] =
      Except.error (.other "boom") ∧
    _translate_async selfDemo gFailA "b" =
      Except.ok { text := "G-pre b", src := "en", dest := "ak", original := "b",
                  preprocessed := "pre b", google_translation := "G-pre b",
                  replacements_count := 1, src_google := "en",
                  dest_google := "ak", replaced_terms := ["Parliament"] } :=
  ⟨rfl, rfl⟩

/-- C1 amended: a failure while translating any text in the batch aborts
the whole batch — the exception propagates out of the loop and no
per-text results are returned for the other texts. -/
theorem batch_translate_abort_on_failure (self : NkraneTranslator)
    (g : String → Except PyExc String) (texts : List String)
    (h : ∃ t ∈ texts, ∃ e, _translate_async self g t = Except.error e) :
    ∃ e, batch_translate self g texts = Except.error e := by
  induction texts with
  | nil => simp at h
  | cons t ts ih =>
    cases hhead : _translate_async self g t with
    | error e =>
      exact ⟨e, by simp [batch_translate, hhead]⟩
    | ok r =>
      obtain ⟨s, hs, e, he⟩ := h
      rcases List.mem_cons.mp hs with h1 | hts
      · subst h1
        rw [hhead] at he
        cases he
      · obtain ⟨e2, he2⟩ := ih ⟨s, hts, e, he⟩
        refine ⟨e2, ?_⟩
        simp [batch_translate, hhead, he2]

/-- C1 amendment witness: the abort theorem at a concrete failing batch. -/
theorem batch_translate_abort_on_failure_witness :
    (∃ t ∈ ["a"], ∃ e, _translate_async selfDemo gFailA t = Except.error e) ∧
    (∃ e, batch_translate selfDemo gFailA ["a"] = Except.error e) :=
  ⟨⟨"a", by simp, PyExc.other "boom", rfl⟩,
    batch_translate_abort_on_failure selfDemo gFailA ["a"]
      ⟨"a", by simp, PyExc.other "boom", rfl⟩⟩

/-! ## `translate` and exception propagation (C2) -/

/-- An attempt-indexed oracle: the external call raises `RuntimeError`
on the first attempt and succeeds on any later attempt. -/
def gRetryDemo : Nat → String → Except PyExc String :=
  fun n s => if n = 0 then Except.error (.runtimeError "boom-loop")
             else Except.ok ("G-" ++ s)

/-- An asyncio environment with an idle event loop and no timeout. -/
def envDemo : LoopEnv := { get_event_loop := Except.ok false, future_times_out := false }

/-- C2 counterexample: when the external call raises a `RuntimeError`,
`translate` does not propagate it and does not stop at one attempt: the
`except RuntimeError` handler re-runs `_translate_async`, so the call is
attempted twice and the second attempt's success is returned. -/
theorem translate_retries_runtime_error_cex :
    _translate_async selfDemo (gRetryDemo 0) "hi" =
      Except.error (.runtimeError "boom-loop") ∧
    translate selfDemo gRetryDemo envDemo "hi" = (Except.ok rDemo, 2) :=
  ⟨rfl, rfl⟩

/-- C2 amended: when `future.result` does not time out and the external
call raises an exception that is not a `RuntimeError`, `translate`
propagates that exception unchanged and runs `_translate_async` exactly
once; only a `RuntimeError` triggers the handler's second attempt. -/
theorem translate_propagates_non_runtime_error (self : NkraneTranslator)
    (g : Nat → String → Except PyExc String) (env : LoopEnv) (text : String)
    (e : PyExc)
    (hto : env.future_times_out = false)
    (h : _translate_async self (g 0) text = Except.error e)
    (hnr : ∀ m, e ≠ PyExc.runtimeError m) :
    translate self g env text = (Except.error e, 1) := by
  obtain ⟨gel, fto⟩ := env
  simp only at hto
  subst hto
  cases gel with
  | error msg =>
    simp only [translate]
    rw [h]
  | ok running =>
    cases running with
    | false =>
      simp [translate]
      cases e with
      | runtimeError m => exact absurd rfl (hnr m)
      | timeoutError m => rw [h]
      | other m => rw [h]
    | true =>
      simp [translate]
      cases e with
      | runtimeError m => exact absurd rfl (hnr m)
      | timeoutError m => rw [h]
      | other m => rw [h]

/-- An oracle whose external call always fails with a non-RuntimeError
transport exception. -/
def gNetDownDemo : Nat → String → Except PyExc String :=
  fun _ _ => Except.error (.other "net down")

/-- C2 amendment witness: the propagation theorem at a concrete
environment and transport failure. -/
theorem translate_propagates_non_runtime_error_witness :
    (envDemo.future_times_out = false ∧
      _translate_async selfDemo (gNetDownDemo 0) "hi" =
        Except.error (.other "net down") ∧
      ∀ m, PyExc.other "net down" ≠ PyExc.runtimeError m) ∧
    translate selfDemo gNetDownDemo envDemo "hi" =
      (Except.error (.other "net down"), 1) :=
  ⟨⟨rfl, rfl, fun _ hm => nomatch hm⟩,
    translate_propagates_non_runtime_error selfDemo gNetDownDemo envDemo "hi"
      (PyExc.other "net down") rfl rfl (fun _ hm => nomatch hm)⟩

end Nkrane
